import Mathlib

/-!
# ST Prime contract interaction (`lib/contract_interact/st_prime.js`)

A shallow embedding of `StPrimeKlass`: `getBalanceOf`, `_validateBalance`, `transfer`
(with its inner `asyncTransfer`) and `claim`.

Remote calls (the RPC node, the gas estimator, `safeSendFromAddr`, the receipt lookup helper) are
inputs of the model: each run is a function of the arguments and of what the remote side answers.
A promise is modelled by the way it ends: resolved with a value, rejected, or never settled.
Everything a run does to the outside world is recorded, in order, in a list of effects.
-/

namespace StPrime

/-! ## Strings -/

/-- Source `String.prototype.equalsIgnoreCase` (lines 48-54): both sides are lower-cased and
compared with `===`. The built-in `String.prototype.toLowerCase` belongs to the JavaScript
runtime, not to this source unit: it is the argument `toLowerCase`, so that what is proved holds
for the lower-casing of the runtime, on every string. -/
def equalsIgnoreCase (toLowerCase : String → String) (self compareWith : String) : Bool :=
  toLowerCase self == toLowerCase compareWith

/-- Lower-casing of the letters A-Z, character by character, for the concrete scenarios: on the
ASCII strings they use it is what `String.prototype.toLowerCase` computes. -/
def asciiToLowerCase (s : String) : String :=
  String.mk (s.data.map Char.toLower)

/-- Whether the characters `pat` open the character list `s`. -/
def startsWithChars : List Char → List Char → Bool
  | [], _ => true
  | _ :: _, [] => false
  | p :: ps, c :: cs => p == c && startsWithChars ps cs

/-- Whether `pat` occurs somewhere inside `s` (character lists). -/
def includesChars : List Char → List Char → Bool
  | pat, [] => startsWithChars pat []
  | pat, c :: cs => startsWithChars pat (c :: cs) || includesChars pat cs

/-- Substring test `String.prototype.includes`: `includes s pat` is `s.includes(pat)`. -/
def includes (s pat : String) : Bool :=
  includesChars pat.data s.data

/-! ## Values exchanged with the remote side -/

/-- The value a remote call rejects with. JavaScript lets a promise reject with any value, so
`reason.message` may be absent (`none`); `detail` stands for the rest of the value. -/
structure Reason where
  message : Option String
  detail : String
deriving DecidableEq, Repr

/-- A transaction receipt as returned by the node. -/
structure Receipt where
  transactionHash : String
  blockNumber : Nat
deriving DecidableEq, Repr

/-- The value `web3RpcProvider.eth.getBalance` resolves with, as `_validateBalance` looks at it:
`undefined`, a value on which `Number(...)` is `NaN`, or a number (an amount in wei). -/
inductive ChainBalance where
  | undefined
  | notANumber
  | number (n : Int)
deriving DecidableEq, Repr

/-- The `data` object of a successful response. -/
inductive ResultData where
  /-- Data `{balance}` of `getBalanceOf`. -/
  | balance (balance : ChainBalance)
  /-- Data `{balance, bigNumBalance}` of `_validateBalance`. -/
  | validatedBalance (balance : ChainBalance) (bigNumBalance : Int)
  /-- Data `{transaction_uuid, transaction_hash, transaction_receipt}` of `transfer`; the empty
  receipt object `{}` is `none`. -/
  | transaction (transaction_uuid transaction_hash : String) (transaction_receipt : Option Receipt)
deriving DecidableEq, Repr

/-- The response envelope built by `responseHelper.error(code, msg)` and
`responseHelper.successWithData(data)`. -/
inductive Result where
  | error (code msg : String)
  | successWithData (data : ResultData)
deriving DecidableEq, Repr

/-- Method `isFailure()` of a response. -/
def Result.isFailure : Result → Bool
  | .error _ _ => true
  | .successWithData _ => false

/-- Method `isSuccess()` of a response. -/
def Result.isSuccess (r : Result) : Bool :=
  !r.isFailure

/-- How a promise ends: resolved with a value, rejected with a reason, or never settled. -/
inductive Promise (α : Type) where
  | resolved (value : α)
  | rejected (reason : Reason)
  | pending
deriving DecidableEq, Repr

/-- Transaction parameters `{from, to, value, gasPrice, gas}` built by `asyncTransfer`; `value` is
the amount whose base-10 rendering the source stores (`from` and `to` are reserved words here). -/
structure TxParams where
  from_ : String
  to_ : String
  value : Int
  gasPrice : String
  gas : Nat
deriving DecidableEq, Repr

/-- The fields of `notificationData.message` that change or identify a transfer: `kind` and, from
the payload, `contract_address`, `params.txParams`, `transaction_hash`, `uuid`, `tag` and
`error_data` (the empty objects `{}` are `none`). -/
structure Notification where
  kind : String
  contract_address : String
  txParams : Option TxParams
  transaction_hash : String
  uuid : String
  tag : Option String
  error_data : Option Reason
deriving DecidableEq, Repr

/-- What a run does to the outside world, in the order in which it happens. -/
inductive Effect where
  /-- Call of `web3RpcProvider.eth.getBalance(owner)`. -/
  | getBalance (owner : String)
  /-- Call of `web3RpcProvider.eth.personal.unlockAccount(senderAddr, senderPassphrase)`. -/
  | unlockAccount (senderAddr senderPassphrase : String)
  /-- Call of `web3RpcProvider.eth.sendTransaction(txParams)`. -/
  | sendTransaction (txParams : TxParams)
  /-- Call of `openSTNotification.publishEvent.perform`, with the notification as it is then. -/
  | publishEvent (n : Notification)
  /-- Call of `contractInteractHelper.getTransactionReceiptFromTrasactionHash`. -/
  | getTransactionReceipt (transactionHash : String)
deriving DecidableEq, Repr

/-- How `sendTransaction` ends after the optional `transactionHash` signal: the `receipt` signal,
or a rejection. -/
inductive SendOutcome where
  | receipt (r : Receipt)
  | error (reason : Reason)
deriving DecidableEq, Repr

/-- The behaviour of the node during one run. -/
structure Node where
  /-- Answer of `eth.getBalance(owner)`. -/
  getBalance : String → Except Reason ChainBalance
  /-- Answer of `eth.personal.unlockAccount`: `none` when it resolves, else the rejection. -/
  unlockAccount : String → String → Option Reason
  /-- The hash passed to the `transactionHash` listener, when that signal is emitted. -/
  transactionHash : Option String
  /-- How `sendTransaction` ends. -/
  outcome : SendOutcome
  /-- Answer of the receipt lookup by hash: `some r` is a successful response whose
  `data.receipt` is `r`, `none` a failed response. -/
  getTransactionReceipt : String → Option Receipt

/-- The functions of `helpers/basic_helper` that `transfer` and `getBalanceOf` call on addresses,
amounts and tags; `A` is the type of the `amountInWei` argument. -/
structure BasicHelper (A : Type) where
  isAddressValid : String → Bool
  isNonZeroWeiValid : A → Bool
  isTagValid : Option String → Bool
  convertToBigNumber : A → Int

/-- Modelled from the spec: `basicHelper.getReturnType`, which is not part of this source unit.
The documentation of `options.returnType` (lines 192-193) lists uuid, txHash and txReceipt and
gives uuid as the default. -/
def getReturnType (returnType : Option String) : String :=
  match returnType with
  | some rt => if rt = "txHash" ∨ rt = "txReceipt" then rt else "uuid"
  | none => "uuid"

/-- Modelled from the spec: `basicHelper.isReturnTypeUUID`. -/
def isReturnTypeUUID (returnType : String) : Bool :=
  returnType == "uuid"

/-- Modelled from the spec: `basicHelper.isReturnTypeTxHash`. -/
def isReturnTypeTxHash (returnType : String) : Bool :=
  returnType == "txHash"

/-- Modelled from the spec: `basicHelper.isReturnTypeTxReceipt`. -/
def isReturnTypeTxReceipt (returnType : String) : Bool :=
  returnType == "txReceipt"

/-- The argument `options` of `transfer`. -/
structure Options where
  tag : Option String
  returnType : Option String
deriving DecidableEq, Repr

/-! ## getBalanceOf and _validateBalance -/

/-- The promise returned by an operation together with the effects of the run. `uncaught` records
an exception thrown inside a promise callback, which nothing handles. -/
structure Run where
  result : Promise Result
  effects : List Effect
  uncaught : Bool
deriving DecidableEq, Repr

/-- Source `getBalanceOf` (lines 98-113). The promise is resolved in the address check and in the
`then` callback of `eth.getBalance`; nothing handles a rejection of `eth.getBalance`. -/
def getBalanceOf {A : Type} (h : BasicHelper A) (node : Node) (owner : String) : Run :=
  if !h.isAddressValid owner then
    { result := .resolved (.error "l_ci_stp_getBalanceOf_1" ("Invalid blockchain address: " ++ owner)),
      effects := [], uncaught := false }
  else
    match node.getBalance owner with
    | .ok balanceFromChain =>
      { result := .resolved (.successWithData (.balance balanceFromChain)),
        effects := [.getBalance owner], uncaught := false }
    | .error _ =>
      { result := .pending, effects := [.getBalance owner], uncaught := true }

/-- The `then` callback of `_validateBalance` (lines 436-453). -/
def validateBalanceResponse (response : Result) (bigMinAmount : Int) : Result :=
  match response with
  | .error code msg => .error code msg
  | .successWithData (.balance .undefined) => .error "l_ci_stp_validateBalance_1" "Something went wrong"
  | .successWithData (.balance .notANumber) => .error "l_ci_stp_validateBalance_1" "Something went wrong"
  | .successWithData (.balance (.number n)) =>
    if n < bigMinAmount then .error "l_ci_stp_validateBalance_2" "Insufficient Funds"
    else .successWithData (.validatedBalance (.number n) n)
  | .successWithData _ => .error "l_ci_stp_validateBalance_1" "Something went wrong"

/-- Source `_validateBalance` (lines 432-455): `getBalanceOf(owner).then(...)`. -/
def validateBalance {A : Type} (h : BasicHelper A) (node : Node) (owner : String)
    (bigMinAmount : Int) : Run :=
  let r := getBalanceOf h node owner
  match r.result with
  | .resolved response => { r with result := .resolved (validateBalanceResponse response bigMinAmount) }
  | .rejected reason => { r with result := .rejected reason }
  | .pending => r

/-! ## transfer -/

/-- The gas limit `transfer_gas_limit` of a plain transfer (line 264). -/
def transfer_gas_limit : Nat := 25000

/-- The mutable state shared by the callbacks of `asyncTransfer`: the `notificationData` object,
the effects so far, the value the promise was resolved with (the first call of `onResolve` wins)
and whether a callback threw. -/
structure AsyncState where
  notificationData : Notification
  effects : List Effect
  settled : Option Result
  uncaught : Bool
deriving DecidableEq, Repr

/-- Call `openSTNotification.publishEvent.perform(notificationData)`: fire and forget. -/
def publishEvent (st : AsyncState) : AsyncState :=
  { st with effects := st.effects ++ [Effect.publishEvent st.notificationData] }

/-- Call `onResolve(r)`: it settles the promise unless it is settled already. -/
def onResolve (r : Result) (st : AsyncState) : AsyncState :=
  match st.settled with
  | some _ => st
  | none => { st with settled := some r }

/-- Source `onReceipt` (lines 273-287). -/
def onReceipt (returnType txUUID : String) (receipt : Receipt) (st : AsyncState) : AsyncState :=
  let st1 := { st with notificationData := { st.notificationData with kind := "transaction_mined" } }
  let st2 := publishEvent st1
  if isReturnTypeTxReceipt returnType then
    onResolve (.successWithData (.transaction txUUID receipt.transactionHash (some receipt))) st2
  else
    st2

/-- Source listener of the `transactionHash` signal (lines 292-303). -/
def onTransactionHash (returnType txUUID transactionHash : String) (st : AsyncState) : AsyncState :=
  let st1 := { st with notificationData :=
    { st.notificationData with transaction_hash := transactionHash, kind := "transaction_initiated" } }
  let st2 := publishEvent st1
  if isReturnTypeTxHash returnType then
    onResolve (.successWithData (.transaction txUUID transactionHash none)) st2
  else
    st2

/-- Source `onCatchError` (lines 309-321). -/
def onCatchError (reason : Reason) (st : AsyncState) : AsyncState :=
  let st1 := { st with notificationData :=
    { st.notificationData with error_data := some reason, kind := "transaction_error" } }
  let st2 := publishEvent st1
  onResolve (.error "l_ci_bt_transfer_6" "Transaction failed") st2

/-- Source `catch` callback (lines 306-339). `reason.message.includes(...)` throws when `reason`
has no `message`: the callback then ends there, and nothing handles the exception. -/
def catchHandler (node : Node) (returnType txUUID : String) (reason : Reason)
    (st : AsyncState) : AsyncState :=
  match reason.message with
  | none => { st with uncaught := true }
  | some message =>
    if includes message "not mined within" then
      let transactionHash := st.notificationData.transaction_hash
      let st1 := { st with effects := st.effects ++ [Effect.getTransactionReceipt transactionHash] }
      match node.getTransactionReceipt transactionHash with
      | some receipt => onReceipt returnType txUUID receipt st1
      | none => onCatchError reason st1
    else
      onCatchError reason st

/-- Source `asyncTransfer` (lines 262-342), run on the state `st` in which the promise is not
settled yet. -/
def asyncTransfer (UC_GAS_PRICE : String) (node : Node) (returnType txUUID : String)
    (senderAddr senderPassphrase recipient : String) (bigNumAmount : Int)
    (st : AsyncState) : AsyncState :=
  let txParams : TxParams :=
    { from_ := senderAddr, to_ := recipient, value := bigNumAmount,
      gasPrice := UC_GAS_PRICE, gas := transfer_gas_limit }
  let st1 := { st with notificationData := { st.notificationData with txParams := some txParams } }
  let st2 := { st1 with effects := st1.effects ++ [Effect.unlockAccount senderAddr senderPassphrase] }
  match node.unlockAccount senderAddr senderPassphrase with
  | some reason => catchHandler node returnType txUUID reason st2
  | none =>
    let st3 := { st2 with effects := st2.effects ++ [Effect.sendTransaction txParams] }
    let st4 :=
      match node.transactionHash with
      | some transactionHash => onTransactionHash returnType txUUID transactionHash st3
      | none => st3
    match node.outcome with
    | .receipt receipt => onReceipt returnType txUUID receipt st4
    | .error reason => catchHandler node returnType txUUID reason st4

/-- Source `transfer` (lines 198-351). `txUUID` is the value of `uuid.v4()`, `UC_GAS_PRICE` the
configured gas price, `contractAddress` the field `oThis.contractAddress`, `toLowerCase` the
built-in lower-casing that `equalsIgnoreCase` calls. -/
def transfer {A : Type} [ToString A] (toLowerCase : String → String)
    (h : BasicHelper A) (UC_GAS_PRICE : String) (node : Node)
    (contractAddress txUUID : String) (senderAddr senderPassphrase recipient : String)
    (amountInWei : A) (options : Options) : Run :=
  let tag := options.tag
  let returnType := getReturnType options.returnType
  let notificationData : Notification :=
    { kind := "", contract_address := contractAddress, txParams := none, transaction_hash := "",
      uuid := txUUID, tag := tag, error_data := none }
  if !h.isAddressValid senderAddr then
    { result := .resolved (.error "l_ci_stp_transfer_1" ("Invalid blockchain address: " ++ senderAddr)),
      effects := [], uncaught := false }
  else if !h.isAddressValid recipient then
    { result := .resolved (.error "l_ci_stp_transfer_2" ("Invalid blockchain address: " ++ recipient)),
      effects := [], uncaught := false }
  else if equalsIgnoreCase toLowerCase senderAddr recipient then
    { result := .resolved (.error "l_ci_stp_transfer_3"
        ("Same sender & recipient address provided. Sender: " ++ senderAddr ++ " , Recipient: "
          ++ recipient)),
      effects := [], uncaught := false }
  else if !h.isNonZeroWeiValid amountInWei then
    { result := .resolved (.error "l_ci_stp_transfer_4" ("Invalid amount: " ++ toString amountInWei)),
      effects := [], uncaught := false }
  else if !h.isTagValid tag then
    { result := .resolved (.error "l_ci_stp_transfer_5" "Invalid transaction tag"),
      effects := [], uncaught := false }
  else
    let bigNumAmount := h.convertToBigNumber amountInWei
    let senderBalanceResponse := validateBalance h node senderAddr bigNumAmount
    match senderBalanceResponse.result with
    | .pending => senderBalanceResponse
    | .rejected _ => senderBalanceResponse
    | .resolved response =>
      if response.isFailure then
        senderBalanceResponse
      else
        let st := asyncTransfer UC_GAS_PRICE node returnType txUUID senderAddr senderPassphrase
          recipient bigNumAmount
          { notificationData := notificationData, effects := senderBalanceResponse.effects,
            settled := none, uncaught := senderBalanceResponse.uncaught }
        if isReturnTypeUUID returnType then
          { result := .resolved (.successWithData (.transaction txUUID "" none)),
            effects := st.effects, uncaught := st.uncaught }
        else
          { result := match st.settled with
              | some r => .resolved r
              | none => .pending,
            effects := st.effects, uncaught := st.uncaught }

/-! ## claim -/

/-- The name `stPrimeContractName` of the contract (line 31). -/
def stPrimeContractName : String := "stPrime"

/-- The parameters given to `EstimateGasKlass` (lines 157-164). -/
structure EstimateGasParams where
  contract_name : String
  contract_address : String
  chain : String
  sender_address : String
  method_name : String
  method_arguments : List String
deriving DecidableEq, Repr

/-- The object `{gasPrice, gas}` given to `safeSendFromAddr`; `gas` is `none` when the estimator
response carries no `gas_to_use`. -/
structure SendOptions where
  gasPrice : String
  gas : Option Nat
deriving DecidableEq, Repr

/-- The arguments of one call of `contractInteractHelper.safeSendFromAddr`. -/
structure SafeSendFromAddrCall where
  contractAddress : String
  encodedABI : String
  senderAddress : String
  senderPassphrase : String
  options : SendOptions
deriving DecidableEq, Repr

/-- The collaborators of `claim`: the ABI encoder, the node's gas price, the gas estimator (the
field `data.gas_to_use` of its response) and `safeSendFromAddr`. -/
structure ClaimEnv where
  encodeClaimABI : String → String
  getGasPrice : Except Reason Int
  estimateGas : EstimateGasParams → Except Reason (Option Nat)
  safeSendFromAddr : SafeSendFromAddrCall → Promise Result

/-- The promise returned by `claim`, the estimator request it made and the call of
`safeSendFromAddr` it made, when it got that far. -/
structure ClaimRun where
  result : Promise Result
  estimated : Option EstimateGasParams
  submitted : Option SafeSendFromAddrCall
deriving DecidableEq, Repr

/-- Source `claim` (lines 151-181): an `async` function, so a rejected `await` rejects the
returned promise. -/
def claim (UC_GAS_PRICE : String) (env : ClaimEnv)
    (contractAddress senderAddress senderPassphrase beneficiaryAddress : String) : ClaimRun :=
  let encodedABI := env.encodeClaimABI beneficiaryAddress
  match env.getGasPrice with
  | .error reason => { result := .rejected reason, estimated := none, submitted := none }
  | .ok currentGasPrice =>
    let params : EstimateGasParams :=
      { contract_name := stPrimeContractName, contract_address := contractAddress,
        chain := "utility", sender_address := senderAddress, method_name := "claim",
        method_arguments := [beneficiaryAddress] }
    match env.estimateGas params with
    | .error reason => { result := .rejected reason, estimated := some params, submitted := none }
    | .ok gasToUse =>
      let call : SafeSendFromAddrCall :=
        { contractAddress := contractAddress, encodedABI := encodedABI,
          senderAddress := senderAddress, senderPassphrase := senderPassphrase,
          options := { gasPrice := if currentGasPrice = 0 then "0x0" else UC_GAS_PRICE,
                       gas := gasToUse } }
      { result := env.safeSendFromAddr call, estimated := some params, submitted := some call }

/-! ## Reading a run -/

/-- The notifications published during a run, in order. -/
def notifications : List Effect → List Notification
  | [] => []
  | .publishEvent n :: es => n :: notifications es
  | _ :: es => notifications es

/-- A terminal notification: `transaction_mined` or `transaction_error`. -/
def isTerminal (n : Notification) : Bool :=
  n.kind == "transaction_mined" || n.kind == "transaction_error"

/-- The kinds of the notifications published during a run, in order. -/
def kinds (es : List Effect) : List String :=
  (notifications es).map (fun n => n.kind)

/-- The receipt lookups made during a run, in order (the hash each one asked for). -/
def lookups : List Effect → List String
  | [] => []
  | .getTransactionReceipt transactionHash :: es => transactionHash :: lookups es
  | _ :: es => lookups es

/-- The terminal notifications published during a run, in order. -/
def terminals (es : List Effect) : List Notification :=
  (notifications es).filter isTerminal

/-- The value of `notificationData` when `transfer` starts (lines 204-223). -/
def initialNotification (contractAddress txUUID : String) (tag : Option String) : Notification :=
  { kind := "", contract_address := contractAddress, txParams := none, transaction_hash := "",
    uuid := txUUID, tag := tag, error_data := none }

/-! ## The properties of the specification -/

/-- A transfer request that passes the five checks of lines 228-244. -/
def Valid {A : Type} (toLowerCase : String → String) (h : BasicHelper A)
    (senderAddr recipient : String) (amountInWei : A)
    (tag : Option String) : Prop :=
  h.isAddressValid senderAddr = true ∧ h.isAddressValid recipient = true ∧
  equalsIgnoreCase toLowerCase senderAddr recipient = false ∧
  h.isNonZeroWeiValid amountInWei = true ∧
  h.isTagValid tag = true

/-- The codes of the five validation rules, in the order of the specification. -/
def validationCodes : List String :=
  ["l_ci_stp_transfer_1", "l_ci_stp_transfer_2", "l_ci_stp_transfer_3", "l_ci_stp_transfer_4",
    "l_ci_stp_transfer_5"]

/-- The validation rules in the words of the specification, each with whether the request
violates it: malformed sender, malformed recipient, sender equal to recipient ignoring case,
invalid or non-positive amount, invalid tag. -/
def violations {A : Type} (toLowerCase : String → String) (h : BasicHelper A)
    (senderAddr recipient : String) (amountInWei : A)
    (tag : Option String) : List (Bool × String) :=
  [(!h.isAddressValid senderAddr, "l_ci_stp_transfer_1"),
   (!h.isAddressValid recipient, "l_ci_stp_transfer_2"),
   (toLowerCase senderAddr == toLowerCase recipient, "l_ci_stp_transfer_3"),
   (!h.isNonZeroWeiValid amountInWei, "l_ci_stp_transfer_4"),
   (!h.isTagValid tag, "l_ci_stp_transfer_5")]

/-- The code of the first violated rule, if a rule is violated. -/
def firstViolation {A : Type} (toLowerCase : String → String) (h : BasicHelper A)
    (senderAddr recipient : String) (amountInWei : A)
    (tag : Option String) : Option String :=
  ((violations toLowerCase h senderAddr recipient amountInWei tag).find? (fun rule => rule.1)).map
    (fun rule => rule.2)

/-- In a sequence of notification kinds, every terminal notification has a
`transaction_initiated` notification before it. -/
def InitiatedPrecedesTerminals (ks : List String) : Prop :=
  ∀ i : Nat, (ks[i]? = some "transaction_mined" ∨ ks[i]? = some "transaction_error") →
    ∃ j : Nat, j < i ∧ ks[j]? = some "transaction_initiated"

/-- Every rejection of the node during the run carries a message. -/
def ReasonsCarryMessage (node : Node) (senderAddr senderPassphrase : String) : Prop :=
  (∀ reason, node.unlockAccount senderAddr senderPassphrase = some reason →
    reason.message.isSome = true) ∧
  (∀ reason, node.outcome = .error reason → reason.message.isSome = true)

/-- The error code of the failed response a promise resolved with; `none` when the promise did
not resolve or resolved with a successful response. -/
def failureCode : Promise Result → Option String
  | .resolved (.error code _) => some code
  | _ => none

/-! ## Concrete scenarios -/

/-- A helper for the concrete scenarios: an address starts with 0x, an amount is a positive
integer, a tag is present. -/
def sampleHelper : BasicHelper Int where
  isAddressValid := fun s => startsWithChars "0x".data s.data
  isNonZeroWeiValid := fun n => decide (0 < n)
  isTagValid := fun t => t.isSome
  convertToBigNumber := fun n => n

/-- The node of the happy path: balance 1000, hash 0xabc, then a receipt. -/
def happyNode : Node where
  getBalance := fun _ => .ok (.number 1000)
  unlockAccount := fun _ _ => none
  transactionHash := some "0xabc"
  outcome := .receipt { transactionHash := "0xabc", blockNumber := 7 }
  getTransactionReceipt := fun _ => none

/-- The node of the ambiguous timeout: hash 0xdef, then a rejection that says the transaction was
not mined within 50 blocks, while the lookup of 0xdef finds a receipt. -/
def timeoutNode : Node where
  getBalance := fun _ => .ok (.number 1000)
  unlockAccount := fun _ _ => none
  transactionHash := some "0xdef"
  outcome := .error { message := some "Transaction was not mined within 50 blocks", detail := "" }
  getTransactionReceipt := fun transactionHash =>
    if transactionHash = "0xdef" then some { transactionHash := "0xdef", blockNumber := 9 } else none

/-- A node with balance 50. -/
def poorNode : Node where
  getBalance := fun _ => .ok (.number 50)
  unlockAccount := fun _ _ => none
  transactionHash := some "0xabc"
  outcome := .receipt { transactionHash := "0xabc", blockNumber := 7 }
  getTransactionReceipt := fun _ => none

/-- A node that refuses to unlock the account, with an error that has a message. -/
def lockedNode : Node where
  getBalance := fun _ => .ok (.number 1000)
  unlockAccount := fun _ _ =>
    some { message := some "could not decrypt key with given passphrase", detail := "" }
  transactionHash := none
  outcome := .error { message := some "unreachable", detail := "" }
  getTransactionReceipt := fun _ => none

/-- A node that refuses to unlock the account, rejecting with a value that has no `message`. -/
def messagelessNode : Node where
  getBalance := fun _ => .ok (.number 1000)
  unlockAccount := fun _ _ => some { message := none, detail := "account is locked" }
  transactionHash := none
  outcome := .error { message := some "unreachable", detail := "" }
  getTransactionReceipt := fun _ => none

/-- A node that reports the hash 0xabc and then rejects the send with a value that has no
`message`. -/
def messagelessSendNode : Node where
  getBalance := fun _ => .ok (.number 1000)
  unlockAccount := fun _ _ => none
  transactionHash := some "0xabc"
  outcome := .error { message := none, detail := "nonce too low" }
  getTransactionReceipt := fun _ => none

/-- A node whose balance read is rejected. -/
def unreachableNode : Node where
  getBalance := fun _ => .error { message := some "connection refused", detail := "" }
  unlockAccount := fun _ _ => none
  transactionHash := some "0xabc"
  outcome := .receipt { transactionHash := "0xabc", blockNumber := 7 }
  getTransactionReceipt := fun _ => none

/-- A node that sends the receipt signal without a hash signal before it. -/
def silentNode : Node where
  getBalance := fun _ => .ok (.number 1000)
  unlockAccount := fun _ _ => none
  transactionHash := none
  outcome := .receipt { transactionHash := "0xabc", blockNumber := 7 }
  getTransactionReceipt := fun _ => none

/-- Collaborators of `claim` on a network whose gas price is 0 and whose estimator answers
21000. -/
def freeClaimEnv : ClaimEnv where
  encodeClaimABI := fun beneficiaryAddress => "claim:" ++ beneficiaryAddress
  getGasPrice := .ok 0
  estimateGas := fun _ => .ok (some 21000)
  safeSendFromAddr := fun _ =>
    .resolved (.successWithData (.transaction "" "0xc1a" none))

/-- Collaborators of `claim` when the gas price read is rejected. -/
def brokenClaimEnv : ClaimEnv where
  encodeClaimABI := fun beneficiaryAddress => "claim:" ++ beneficiaryAddress
  getGasPrice := .error { message := some "connection refused", detail := "" }
  estimateGas := fun _ => .ok (some 21000)
  safeSendFromAddr := fun _ =>
    .resolved (.successWithData (.transaction "" "0xc1a" none))

/-! ## Lemmas on runs -/

theorem notifications_append (l₁ l₂ : List Effect) :
    notifications (l₁ ++ l₂) = notifications l₁ ++ notifications l₂ := by
  induction l₁ with
  | nil => rfl
  | cons e es ih => cases e <;> simp [notifications, ih]

theorem lookups_append (l₁ l₂ : List Effect) :
    lookups (l₁ ++ l₂) = lookups l₁ ++ lookups l₂ := by
  induction l₁ with
  | nil => rfl
  | cons e es ih => cases e <;> simp [lookups, ih]

@[simp] theorem onResolve_effects (r : Result) (st : AsyncState) :
    (onResolve r st).effects = st.effects := by
  unfold onResolve; split <;> rfl

@[simp] theorem onResolve_notificationData (r : Result) (st : AsyncState) :
    (onResolve r st).notificationData = st.notificationData := by
  unfold onResolve; split <;> rfl

@[simp] theorem onResolve_uncaught (r : Result) (st : AsyncState) :
    (onResolve r st).uncaught = st.uncaught := by
  unfold onResolve; split <;> rfl

@[simp] theorem onReceipt_effects (returnType txUUID : String) (receipt : Receipt)
    (st : AsyncState) :
    (onReceipt returnType txUUID receipt st).effects =
      st.effects ++ [Effect.publishEvent { st.notificationData with kind := "transaction_mined" }] := by
  unfold onReceipt; simp only []; split <;> simp [publishEvent]

@[simp] theorem onCatchError_effects (reason : Reason) (st : AsyncState) :
    (onCatchError reason st).effects =
      st.effects ++ [Effect.publishEvent
        { st.notificationData with error_data := some reason, kind := "transaction_error" }] := by
  simp [onCatchError, publishEvent]

@[simp] theorem onTransactionHash_effects (returnType txUUID transactionHash : String)
    (st : AsyncState) :
    (onTransactionHash returnType txUUID transactionHash st).effects =
      st.effects ++ [Effect.publishEvent { st.notificationData with
        transaction_hash := transactionHash, kind := "transaction_initiated" }] := by
  unfold onTransactionHash; simp only []; split <;> simp [publishEvent]

@[simp] theorem onTransactionHash_notificationData (returnType txUUID transactionHash : String)
    (st : AsyncState) :
    (onTransactionHash returnType txUUID transactionHash st).notificationData =
      { st.notificationData with
        transaction_hash := transactionHash, kind := "transaction_initiated" } := by
  unfold onTransactionHash; simp only []; split <;> simp [publishEvent]

/-- A valid request whose sender holds at least the amount reaches `asyncTransfer`: the run is
that of `asyncTransfer` after one balance read. -/
theorem transfer_of_valid_solvent {A : Type} [ToString A] (toLowerCase : String → String)
    (h : BasicHelper A)
    (UC_GAS_PRICE : String)
    (node : Node) (contractAddress txUUID senderAddr senderPassphrase recipient : String)
    (amountInWei : A) (options : Options) (b : Int)
    (hvalid : Valid toLowerCase h senderAddr recipient amountInWei options.tag)
    (hbal : node.getBalance senderAddr = .ok (.number b))
    (hsolvent : h.convertToBigNumber amountInWei ≤ b) :
    transfer toLowerCase h UC_GAS_PRICE node contractAddress txUUID senderAddr senderPassphrase recipient
      amountInWei options =
    (let st := asyncTransfer UC_GAS_PRICE node (getReturnType options.returnType) txUUID senderAddr
        senderPassphrase recipient (h.convertToBigNumber amountInWei)
        { notificationData := initialNotification contractAddress txUUID options.tag,
          effects := [Effect.getBalance senderAddr], settled := none, uncaught := false }
     if isReturnTypeUUID (getReturnType options.returnType) then
       { result := .resolved (.successWithData (.transaction txUUID "" none)),
         effects := st.effects, uncaught := st.uncaught }
     else
       { result := match st.settled with
           | some r => .resolved r
           | none => .pending,
         effects := st.effects, uncaught := st.uncaught }) := by
  obtain ⟨h1, h2, h3, h4, h5⟩ := hvalid
  have hlt : ¬ b < h.convertToBigNumber amountInWei := not_lt.mpr hsolvent
  simp [transfer, h1, h2, h3, h4, h5, validateBalance, getBalanceOf, hbal, validateBalanceResponse,
    hlt, Result.isFailure, initialNotification]

/-- The effects of a valid, solvent transfer are those of `asyncTransfer`, whatever the return
type. -/
theorem transfer_effects_of_valid_solvent {A : Type} [ToString A] (toLowerCase : String → String)
    (h : BasicHelper A)
    (UC_GAS_PRICE : String)
    (node : Node) (contractAddress txUUID senderAddr senderPassphrase recipient : String)
    (amountInWei : A) (options : Options) (b : Int)
    (hvalid : Valid toLowerCase h senderAddr recipient amountInWei options.tag)
    (hbal : node.getBalance senderAddr = .ok (.number b))
    (hsolvent : h.convertToBigNumber amountInWei ≤ b) :
    (transfer toLowerCase h UC_GAS_PRICE node contractAddress txUUID senderAddr senderPassphrase recipient
      amountInWei options).effects =
    (asyncTransfer UC_GAS_PRICE node (getReturnType options.returnType) txUUID senderAddr
        senderPassphrase recipient (h.convertToBigNumber amountInWei)
        { notificationData := initialNotification contractAddress txUUID options.tag,
          effects := [Effect.getBalance senderAddr], settled := none, uncaught := false }).effects := by
  rw [transfer_of_valid_solvent toLowerCase h UC_GAS_PRICE node contractAddress txUUID senderAddr
    senderPassphrase recipient amountInWei options b hvalid hbal hsolvent]
  simp only []
  split <;> rfl

/-! ## Recovery after a failed send -/

/-- Recovery when the rejection carries a message: when the send step of a valid, solvent
transfer is rejected with a reason whose message is `m`, the receipt lookup (by the reported hash, or by the empty hash when none was reported) is
made exactly when `m` contains "not mined within"; the only terminal notification is
`transaction_mined` exactly when the lookup is made and succeeds; in every other case the only
terminal notification is `transaction_error`, carrying the reason as `error_data`. -/
theorem transfer_recovery_on_send_failure {A : Type} [ToString A] (toLowerCase : String → String)
    (h : BasicHelper A)
    (UC_GAS_PRICE : String)
    (node : Node) (contractAddress txUUID senderAddr senderPassphrase recipient : String)
    (amountInWei : A) (options : Options) (b : Int) (reason : Reason) (m : String)
    (hvalid : Valid toLowerCase h senderAddr recipient amountInWei options.tag)
    (hbal : node.getBalance senderAddr = .ok (.number b))
    (hsolvent : h.convertToBigNumber amountInWei ≤ b)
    (hunlock : node.unlockAccount senderAddr senderPassphrase = none)
    (hfail : node.outcome = .error reason) (hm : reason.message = some m) :
    let run := transfer toLowerCase h UC_GAS_PRICE node contractAddress txUUID senderAddr senderPassphrase
      recipient amountInWei options
    let hash := node.transactionHash.getD ""
    let recovered := includes m "not mined within" = true ∧
      (node.getTransactionReceipt hash).isSome = true
    (lookups run.effects = if includes m "not mined within" = true then [hash] else []) ∧
    ((terminals run.effects).map (fun n => n.kind) = ["transaction_mined"] ↔ recovered) ∧
    (¬ recovered → (terminals run.effects).map (fun n => n.kind) = ["transaction_error"] ∧
      (terminals run.effects).map (fun n => n.error_data) = [some reason]) := by
  intro run hash recovered
  have he := transfer_effects_of_valid_solvent toLowerCase h UC_GAS_PRICE node contractAddress txUUID senderAddr
    senderPassphrase recipient amountInWei options b hvalid hbal hsolvent
  simp only [run, recovered, hash, he]
  rcases hT : node.transactionHash with _ | hsh
  · rcases hL : node.getTransactionReceipt "" with _ | rc <;>
    rcases hI : includes m "not mined within" with _ | _ <;>
    simp [asyncTransfer, hunlock, hfail, catchHandler, hm, hT, hI, hL, lookups, lookups_append,
      terminals, notifications, notifications_append, isTerminal, initialNotification]
  · rcases hL : node.getTransactionReceipt hsh with _ | rc <;>
    rcases hI : includes m "not mined within" with _ | _ <;>
    simp [asyncTransfer, hunlock, hfail, catchHandler, hm, hT, hI, hL, lookups, lookups_append,
      terminals, notifications, notifications_append, isTerminal, initialNotification]

/-- The ambiguous-timeout scenario: the lookup of 0xdef is made and the single terminal
notification is `transaction_mined`. -/
theorem transfer_recovery_on_send_failure_witness :
    lookups (transfer asciiToLowerCase sampleHelper "0x3B9ACA00" timeoutNode "0xc0" "uuid-1" "0xa" "pw" "0xb"
      (100 : Int) { tag := some "test", returnType := some "txReceipt" }).effects = ["0xdef"] ∧
    (terminals (transfer asciiToLowerCase sampleHelper "0x3B9ACA00" timeoutNode "0xc0" "uuid-1" "0xa" "pw" "0xb"
      (100 : Int) { tag := some "test", returnType := some "txReceipt" }).effects).map
        (fun n => n.kind) = ["transaction_mined"] :=
  have key := transfer_recovery_on_send_failure asciiToLowerCase sampleHelper "0x3B9ACA00" timeoutNode "0xc0"
    "uuid-1" "0xa" "pw" "0xb" (100 : Int) { tag := some "test", returnType := some "txReceipt" }
    1000 { message := some "Transaction was not mined within 50 blocks", detail := "" }
    "Transaction was not mined within 50 blocks"
    ⟨by decide, by decide, by decide, by decide, by decide⟩ rfl (by decide) rfl rfl rfl
  ⟨key.1.trans (by decide), key.2.1.mpr ⟨by decide, by decide⟩⟩

/-! ## Validation and solvency -/

/-- C3: a request that violates a validation rule is answered with a failed response whose code
is that of the first violated rule (sender, recipient, same address, amount, tag); the five codes
are pairwise distinct; the run has no effect at all (no balance read, no submission, no
notification). -/
theorem transfer_rejects_first_violation {A : Type} [ToString A] (toLowerCase : String → String)
    (h : BasicHelper A)
    (UC_GAS_PRICE : String)
    (node : Node) (contractAddress txUUID senderAddr senderPassphrase recipient : String)
    (amountInWei : A) (options : Options)
    (hviol : ∃ rule ∈ violations toLowerCase h senderAddr recipient amountInWei options.tag, rule.1 = true) :
    let run := transfer toLowerCase h UC_GAS_PRICE node contractAddress txUUID senderAddr senderPassphrase
      recipient amountInWei options
    firstViolation toLowerCase h senderAddr recipient amountInWei options.tag ≠ none ∧
    failureCode run.result = firstViolation toLowerCase h senderAddr recipient amountInWei options.tag ∧
    run.effects = [] ∧ run.uncaught = false ∧
    (violations toLowerCase h senderAddr recipient amountInWei options.tag).map (fun rule => rule.2)
      = validationCodes ∧
    validationCodes.Nodup := by
  intro run
  refine ⟨?_, ?_, ?_, ?_, rfl, by decide⟩ <;>
  · simp only [violations, List.mem_cons, List.mem_singleton, List.not_mem_nil, or_false,
      exists_eq_or_imp, exists_eq_left] at hviol
    simp only [run, firstViolation, violations, transfer, equalsIgnoreCase, failureCode]
    cases h1 : h.isAddressValid senderAddr <;> cases h2 : h.isAddressValid recipient <;>
    cases h3 : (toLowerCase senderAddr == toLowerCase recipient) <;>
    cases h4 : h.isNonZeroWeiValid amountInWei <;> cases h5 : h.isTagValid options.tag <;>
    simp_all

/-- Witness of C3: a valid sender, a malformed recipient and an amount of 0 give the code of the
recipient rule. -/
theorem transfer_rejects_first_violation_witness :
    failureCode (transfer asciiToLowerCase sampleHelper "0x3B9ACA00" happyNode "0xc0" "uuid-1" "0xa" "pw" "b"
      (0 : Int) { tag := some "test", returnType := none }).result
      = some "l_ci_stp_transfer_2" ∧
    (transfer asciiToLowerCase sampleHelper "0x3B9ACA00" happyNode "0xc0" "uuid-1" "0xa" "pw" "b"
      (0 : Int) { tag := some "test", returnType := none }).effects = [] :=
  have key := transfer_rejects_first_violation asciiToLowerCase sampleHelper "0x3B9ACA00" happyNode "0xc0" "uuid-1"
    "0xa" "pw" "b" (0 : Int) { tag := some "test", returnType := none }
    ⟨(true, "l_ci_stp_transfer_2"), by decide, rfl⟩
  ⟨key.2.1.trans (by decide), key.2.2.1⟩

/-- C4: a valid request whose sender's live balance is less than the amount is answered with the
insufficient-funds code, which differs from the five validation codes and from the code of a
failed transaction; the only effect of the run is the balance read, so nothing is submitted and
no notification is published. -/
theorem transfer_insufficient_funds {A : Type} [ToString A] (toLowerCase : String → String)
    (h : BasicHelper A)
    (UC_GAS_PRICE : String)
    (node : Node) (contractAddress txUUID senderAddr senderPassphrase recipient : String)
    (amountInWei : A) (options : Options) (b : Int)
    (hvalid : Valid toLowerCase h senderAddr recipient amountInWei options.tag)
    (hbal : node.getBalance senderAddr = .ok (.number b))
    (hless : b < h.convertToBigNumber amountInWei) :
    let run := transfer toLowerCase h UC_GAS_PRICE node contractAddress txUUID senderAddr senderPassphrase
      recipient amountInWei options
    run.result = .resolved (.error "l_ci_stp_validateBalance_2" "Insufficient Funds") ∧
    run.effects = [Effect.getBalance senderAddr] ∧
    notifications run.effects = [] ∧
    "l_ci_stp_validateBalance_2" ∉ validationCodes ∧
    "l_ci_stp_validateBalance_2" ≠ "l_ci_bt_transfer_6" := by
  intro run
  obtain ⟨h1, h2, h3, h4, h5⟩ := hvalid
  refine ⟨?_, ?_, ?_, by decide, by decide⟩ <;>
  simp [run, transfer, h1, h2, h3, h4, h5, validateBalance, getBalanceOf, hbal,
    validateBalanceResponse, hless, Result.isFailure, notifications]

/-- Witness of C4: balance 50, amount 100. -/
theorem transfer_insufficient_funds_witness :
    (transfer asciiToLowerCase sampleHelper "0x3B9ACA00" poorNode "0xc0" "uuid-1" "0xa" "pw" "0xb" (100 : Int)
      { tag := some "test", returnType := some "txReceipt" }).result
      = .resolved (.error "l_ci_stp_validateBalance_2" "Insufficient Funds") ∧
    notifications (transfer asciiToLowerCase sampleHelper "0x3B9ACA00" poorNode "0xc0" "uuid-1" "0xa" "pw" "0xb"
      (100 : Int) { tag := some "test", returnType := some "txReceipt" }).effects = [] :=
  have key := transfer_insufficient_funds asciiToLowerCase sampleHelper "0x3B9ACA00" poorNode "0xc0" "uuid-1" "0xa"
    "pw" "0xb" (100 : Int) { tag := some "test", returnType := some "txReceipt" } 50
    ⟨by decide, by decide, by decide, by decide, by decide⟩ rfl (by decide)
  ⟨key.1, key.2.2.1⟩

/-- C5: when sender and recipient are equal after lower-casing, the request is answered with a
failed response whose code is that of the sender rule, the recipient rule or the same-address
rule, whatever the amount, the tag and the answers of the address check. The lower-casing is any
function `toLowerCase`, so the statement covers that of the runtime on every pair of strings,
letters outside A-Z included. -/
theorem transfer_same_address_rejected {A : Type} [ToString A] (toLowerCase : String → String)
    (h : BasicHelper A)
    (UC_GAS_PRICE : String)
    (node : Node) (contractAddress txUUID senderAddr senderPassphrase recipient : String)
    (amountInWei : A) (options : Options)
    (hsame : toLowerCase senderAddr = toLowerCase recipient) :
    let code := failureCode (transfer toLowerCase h UC_GAS_PRICE node contractAddress txUUID senderAddr
      senderPassphrase recipient amountInWei options).result
    code = some "l_ci_stp_transfer_1" ∨ code = some "l_ci_stp_transfer_2" ∨
      code = some "l_ci_stp_transfer_3" := by
  simp only [transfer, equalsIgnoreCase]
  cases h1 : h.isAddressValid senderAddr <;> cases h2 : h.isAddressValid recipient <;>
  simp [hsame, failureCode]

/-- Witness of C5: the same address in two letter cases, with a valid amount and tag. -/
theorem transfer_same_address_rejected_witness :
    asciiToLowerCase "0xAB" = asciiToLowerCase "0xab" ∧
    (failureCode (transfer asciiToLowerCase sampleHelper "0x3B9ACA00" happyNode "0xc0" "uuid-1" "0xAB" "pw" "0xab"
        (100 : Int) { tag := some "test", returnType := none }).result
        = some "l_ci_stp_transfer_1" ∨
      failureCode (transfer asciiToLowerCase sampleHelper "0x3B9ACA00" happyNode "0xc0" "uuid-1" "0xAB" "pw" "0xab"
        (100 : Int) { tag := some "test", returnType := none }).result
        = some "l_ci_stp_transfer_2" ∨
      failureCode (transfer asciiToLowerCase sampleHelper "0x3B9ACA00" happyNode "0xc0" "uuid-1" "0xAB" "pw" "0xab"
        (100 : Int) { tag := some "test", returnType := none }).result
        = some "l_ci_stp_transfer_3") :=
  ⟨by decide, transfer_same_address_rejected asciiToLowerCase sampleHelper "0x3B9ACA00" happyNode "0xc0" "uuid-1"
    "0xAB" "pw" "0xab" (100 : Int) { tag := some "test", returnType := none } (by decide)⟩

/-! ## Return policies -/

/-- C6: for a valid, solvent request with return type txReceipt, when the node unlocks the
account, reports the hash `hsh` and then the receipt `r`, the caller gets a successful response
with the uuid, `r.transactionHash` and `r`, and exactly two notifications are published, in the
order `transaction_initiated`, `transaction_mined`, both with the uuid and with the hash `hsh`. -/
theorem transfer_on_confirmed_happy_path {A : Type} [ToString A] (toLowerCase : String → String)
    (h : BasicHelper A)
    (UC_GAS_PRICE : String)
    (node : Node) (contractAddress txUUID senderAddr senderPassphrase recipient : String)
    (amountInWei : A) (options : Options) (b : Int) (hsh : String) (r : Receipt)
    (hvalid : Valid toLowerCase h senderAddr recipient amountInWei options.tag)
    (hbal : node.getBalance senderAddr = .ok (.number b))
    (hsolvent : h.convertToBigNumber amountInWei ≤ b)
    (hrt : options.returnType = some "txReceipt")
    (hunlock : node.unlockAccount senderAddr senderPassphrase = none)
    (hhash : node.transactionHash = some hsh)
    (hreceipt : node.outcome = .receipt r) :
    let run := transfer toLowerCase h UC_GAS_PRICE node contractAddress txUUID senderAddr senderPassphrase
      recipient amountInWei options
    run.result = .resolved (.successWithData (.transaction txUUID r.transactionHash (some r))) ∧
    (notifications run.effects).map (fun n => n.kind)
      = ["transaction_initiated", "transaction_mined"] ∧
    (notifications run.effects).map (fun n => n.uuid) = [txUUID, txUUID] ∧
    (notifications run.effects).map (fun n => n.transaction_hash) = [hsh, hsh] := by
  intro run
  have ht := transfer_of_valid_solvent toLowerCase h UC_GAS_PRICE node contractAddress txUUID senderAddr
    senderPassphrase recipient amountInWei options b hvalid hbal hsolvent
  simp only [run, ht]
  simp [hrt, getReturnType, isReturnTypeUUID, isReturnTypeTxHash, isReturnTypeTxReceipt,
    asyncTransfer, hunlock, hhash, hreceipt, onTransactionHash, onReceipt, publishEvent, onResolve,
    notifications, initialNotification]

/-- Witness of C6 on the happy path: balance 1000, amount 100, hash 0xabc, then a receipt. -/
theorem transfer_on_confirmed_happy_path_witness :
    (transfer asciiToLowerCase sampleHelper "0x3B9ACA00" happyNode "0xc0" "uuid-1" "0xa" "pw" "0xb" (100 : Int)
      { tag := some "test", returnType := some "txReceipt" }).result
      = .resolved (.successWithData (.transaction "uuid-1" "0xabc"
          (some { transactionHash := "0xabc", blockNumber := 7 }))) :=
  (transfer_on_confirmed_happy_path asciiToLowerCase sampleHelper "0x3B9ACA00" happyNode "0xc0" "uuid-1" "0xa" "pw"
    "0xb" (100 : Int) { tag := some "test", returnType := some "txReceipt" } 1000 "0xabc"
    { transactionHash := "0xabc", blockNumber := 7 }
    ⟨by decide, by decide, by decide, by decide, by decide⟩ rfl (by decide) rfl rfl rfl rfl).1

/-- C7: for a valid, solvent request with return type uuid, given or by default, the caller gets
the successful response with the uuid, an empty hash and an empty receipt, whatever the node
does afterwards (unlock, hash, receipt, rejection, lookup). -/
theorem transfer_on_accepted_result {A : Type} [ToString A] (toLowerCase : String → String)
    (h : BasicHelper A)
    (UC_GAS_PRICE : String)
    (node : Node) (contractAddress txUUID senderAddr senderPassphrase recipient : String)
    (amountInWei : A) (options : Options) (b : Int)
    (hvalid : Valid toLowerCase h senderAddr recipient amountInWei options.tag)
    (hbal : node.getBalance senderAddr = .ok (.number b))
    (hsolvent : h.convertToBigNumber amountInWei ≤ b)
    (hrt : options.returnType = none ∨ options.returnType = some "uuid") :
    (transfer toLowerCase h UC_GAS_PRICE node contractAddress txUUID senderAddr senderPassphrase
      recipient amountInWei options).result
      = .resolved (.successWithData (.transaction txUUID "" none)) := by
  rw [transfer_of_valid_solvent toLowerCase h UC_GAS_PRICE node contractAddress txUUID senderAddr
    senderPassphrase recipient amountInWei options b hvalid hbal hsolvent]
  rcases hrt with hrt | hrt <;> simp [hrt, getReturnType, isReturnTypeUUID]

/-- Witness of C7: with the default return type, on a node that refuses to unlock the account,
the caller still gets the successful response. -/
theorem transfer_on_accepted_result_witness :
    (transfer asciiToLowerCase sampleHelper "0x3B9ACA00" lockedNode "0xc0" "uuid-1" "0xa" "pw" "0xb" (100 : Int)
      { tag := some "test", returnType := none }).result
      = .resolved (.successWithData (.transaction "uuid-1" "" none)) :=
  transfer_on_accepted_result asciiToLowerCase sampleHelper "0x3B9ACA00" lockedNode "0xc0" "uuid-1" "0xa" "pw"
    "0xb" (100 : Int) { tag := some "test", returnType := none } 1000
    ⟨by decide, by decide, by decide, by decide, by decide⟩ rfl (by decide) (Or.inl rfl)

/-! ## claim -/

/-- C10: when the gas price read gives `currentGasPrice` and the estimator, asked for
(stPrime, contract address, utility, sender, claim, [beneficiary]), gives `gasToUse`, then
`claim` submits with gas price 0x0 if `currentGasPrice` is 0 and with `UC_GAS_PRICE` otherwise,
and with gas limit `gasToUse`; when `UC_GAS_PRICE` is not itself 0x0, the submitted price is 0x0
if and only if `currentGasPrice` is 0. -/
theorem claim_gas_price_and_limit (UC_GAS_PRICE : String) (env : ClaimEnv)
    (contractAddress senderAddress senderPassphrase beneficiaryAddress : String)
    (currentGasPrice : Int) (gasToUse : Option Nat)
    (hprice : env.getGasPrice = .ok currentGasPrice)
    (hgas : env.estimateGas
      { contract_name := "stPrime", contract_address := contractAddress, chain := "utility",
        sender_address := senderAddress, method_name := "claim",
        method_arguments := [beneficiaryAddress] } = .ok gasToUse) :
    let run := claim UC_GAS_PRICE env contractAddress senderAddress senderPassphrase
      beneficiaryAddress
    let gasPrice := run.submitted.map (fun call => call.options.gasPrice)
    run.estimated = some
      { contract_name := "stPrime", contract_address := contractAddress, chain := "utility",
        sender_address := senderAddress, method_name := "claim",
        method_arguments := [beneficiaryAddress] } ∧
    run.submitted.map (fun call => call.options.gas) = some gasToUse ∧
    (currentGasPrice = 0 → gasPrice = some "0x0") ∧
    (currentGasPrice ≠ 0 → gasPrice = some UC_GAS_PRICE) ∧
    (UC_GAS_PRICE ≠ "0x0" → (gasPrice = some "0x0" ↔ currentGasPrice = 0)) := by
  intro run gasPrice
  simp only [run, gasPrice, claim, hprice, stPrimeContractName, hgas, Option.map_some']
  refine ⟨trivial, trivial, ?_, ?_, ?_⟩
  · intro h0; simp [h0]
  · intro h0; simp [h0]
  · intro hne
    by_cases h0 : currentGasPrice = 0
    · simp [h0]
    · simp [h0, hne]

/-- Witness of C10: on a network whose gas price is 0, with a configured price of 0x3B9ACA00 and
an estimate of 21000, the claim is submitted at price 0x0 with gas limit 21000. -/
theorem claim_gas_price_and_limit_witness :
    (claim "0x3B9ACA00" freeClaimEnv "0xc0" "0xa" "pw" "0xb").submitted.map
      (fun call => call.options.gasPrice) = some "0x0" ∧
    (claim "0x3B9ACA00" freeClaimEnv "0xc0" "0xa" "pw" "0xb").submitted.map
      (fun call => call.options.gas) = some (some 21000) :=
  have key := claim_gas_price_and_limit "0x3B9ACA00" freeClaimEnv "0xc0" "0xa" "pw" "0xb" 0
    (some 21000) rfl rfl
  ⟨key.2.2.1 rfl, key.2.1⟩

/-! ## Order of the notifications -/

/-- The effects of any run of `transfer`: none (a validation rule is violated), the balance read
alone (the solvency check did not pass), or those of `asyncTransfer` after the balance read. -/
theorem transfer_effects_cases {A : Type} [ToString A] (toLowerCase : String → String)
    (h : BasicHelper A) (UC_GAS_PRICE : String)
    (node : Node) (contractAddress txUUID senderAddr senderPassphrase recipient : String)
    (amountInWei : A) (options : Options) :
    let es := (transfer toLowerCase h UC_GAS_PRICE node contractAddress txUUID senderAddr
      senderPassphrase recipient amountInWei options).effects
    es = [] ∨ es = [Effect.getBalance senderAddr] ∨
    es = (asyncTransfer UC_GAS_PRICE node (getReturnType options.returnType) txUUID senderAddr
        senderPassphrase recipient (h.convertToBigNumber amountInWei)
        { notificationData := initialNotification contractAddress txUUID options.tag,
          effects := [Effect.getBalance senderAddr], settled := none, uncaught := false }).effects := by
  intro es
  by_cases hv : Valid toLowerCase h senderAddr recipient amountInWei options.tag
  · have hv0 := hv
    obtain ⟨h1, h2, h3, h4, h5⟩ := hv
    rcases hB : node.getBalance senderAddr with e | bal
    · right; left
      simp [es, transfer, h1, h2, h3, h4, h5, validateBalance, getBalanceOf, hB]
    · rcases bal with _ | _ | n
      · right; left
        simp [es, transfer, h1, h2, h3, h4, h5, validateBalance, getBalanceOf, hB,
          validateBalanceResponse, Result.isFailure]
      · right; left
        simp [es, transfer, h1, h2, h3, h4, h5, validateBalance, getBalanceOf, hB,
          validateBalanceResponse, Result.isFailure]
      · by_cases hlt : n < h.convertToBigNumber amountInWei
        · right; left
          simp [es, transfer, h1, h2, h3, h4, h5, validateBalance, getBalanceOf, hB,
            validateBalanceResponse, Result.isFailure, hlt]
        · right; right
          exact transfer_effects_of_valid_solvent toLowerCase h UC_GAS_PRICE node contractAddress txUUID
            senderAddr senderPassphrase recipient amountInWei options n hv0 hB (not_lt.mp hlt)
  · left
    unfold Valid at hv
    simp only [es, transfer]
    cases h1 : h.isAddressValid senderAddr <;> cases h2 : h.isAddressValid recipient <;>
    cases h3 : equalsIgnoreCase toLowerCase senderAddr recipient <;>
    cases h4 : h.isNonZeroWeiValid amountInWei <;> cases h5 : h.isTagValid options.tag <;>
    simp_all

/-- The kinds of the notifications that `asyncTransfer` adds to a state without notifications:
a lone terminal notification or nothing when the node did not report a hash, and otherwise
`transaction_initiated` followed by at most one terminal notification. -/
theorem asyncTransfer_kinds_cases (UC_GAS_PRICE : String) (node : Node)
    (returnType txUUID senderAddr senderPassphrase recipient : String) (bigNumAmount : Int)
    (st : AsyncState) (hst : notifications st.effects = []) :
    let ks := kinds (asyncTransfer UC_GAS_PRICE node returnType txUUID senderAddr senderPassphrase
      recipient bigNumAmount st).effects
    let reported := node.unlockAccount senderAddr senderPassphrase = none ∧
      node.transactionHash.isSome = true
    (¬ reported ∧ (ks = [] ∨ ks = ["transaction_mined"] ∨ ks = ["transaction_error"])) ∨
    (reported ∧ (ks = ["transaction_initiated"] ∨
      ks = ["transaction_initiated", "transaction_mined"] ∨
      ks = ["transaction_initiated", "transaction_error"])) := by
  intro ks reported
  simp only [ks, reported, asyncTransfer, catchHandler]
  rcases hU : node.unlockAccount senderAddr senderPassphrase with _ | ru
  · rcases hT : node.transactionHash with _ | hsh <;>
    rcases hO : node.outcome with rc | rs
    · simp [hst, kinds, notifications, notifications_append]
    · rcases hM : rs.message with _ | m
      · simp [hst, hM, kinds, notifications, notifications_append]
      · by_cases hI : includes m "not mined within" = true
        · rcases hL : node.getTransactionReceipt st.notificationData.transaction_hash
            with _ | rc <;>
          simp [hst, hM, hI, hL, kinds, notifications, notifications_append]
        · simp [hst, hM, hI, kinds, notifications, notifications_append]
    · simp [hst, kinds, notifications, notifications_append]
    · rcases hM : rs.message with _ | m
      · simp [hst, hM, kinds, notifications, notifications_append]
      · by_cases hI : includes m "not mined within" = true
        · rcases hL : node.getTransactionReceipt hsh with _ | rc <;>
          simp [hst, hM, hI, hL, kinds, notifications, notifications_append]
        · simp [hst, hM, hI, kinds, notifications, notifications_append]
  · rcases hM : ru.message with _ | m
    · simp [hst, hM, kinds, notifications, notifications_append]
    · by_cases hI : includes m "not mined within" = true
      · rcases hL : node.getTransactionReceipt st.notificationData.transaction_hash
          with _ | rc <;>
        simp [hst, hM, hI, hL, kinds, notifications, notifications_append]
      · simp [hst, hM, hI, kinds, notifications, notifications_append]

/-- On each of the possible sequences of kinds, `transaction_initiated` occurs only in first
position, and when the hash was reported every terminal notification comes after it. -/
theorem initiated_first_of_cases (ks : List String) (reported : Prop)
    (hk : (¬ reported ∧ (ks = [] ∨ ks = ["transaction_mined"] ∨ ks = ["transaction_error"])) ∨
      (reported ∧ (ks = ["transaction_initiated"] ∨
        ks = ["transaction_initiated", "transaction_mined"] ∨
        ks = ["transaction_initiated", "transaction_error"]))) :
    (∀ i : Nat, ks[i]? = some "transaction_initiated" → i = 0) ∧
    (reported → InitiatedPrecedesTerminals ks) := by
  rcases hk with ⟨hn, h⟩ | ⟨_, h⟩
  · refine ⟨fun i hi => ?_, fun hr => absurd hr hn⟩
    rcases h with h | h | h <;> subst h <;> rcases i with _ | _ | i <;> simp at hi
  · rcases h with h | h | h <;> subst h <;> refine ⟨fun i hi => ?_, fun _ i hi => ?_⟩ <;>
    rcases i with _ | _ | i <;> simp at hi <;>
    first
      | rfl
      | exact ⟨0, Nat.zero_lt_one, rfl⟩

/-- C8, as amended: in every run of `transfer`, a `transaction_initiated` notification can only
be the first notification published, so it precedes any `transaction_mined` or
`transaction_error` notification; and when the node unlocks the account and reports a transaction
hash, every terminal notification has `transaction_initiated` before it. -/
theorem transfer_initiated_comes_first {A : Type} [ToString A] (toLowerCase : String → String)
    (h : BasicHelper A)
    (UC_GAS_PRICE : String)
    (node : Node) (contractAddress txUUID senderAddr senderPassphrase recipient : String)
    (amountInWei : A) (options : Options) :
    let ks := kinds (transfer toLowerCase h UC_GAS_PRICE node contractAddress txUUID senderAddr
      senderPassphrase recipient amountInWei options).effects
    (∀ i : Nat, ks[i]? = some "transaction_initiated" → i = 0) ∧
    (node.unlockAccount senderAddr senderPassphrase = none →
      node.transactionHash.isSome = true → InitiatedPrecedesTerminals ks) := by
  intro ks
  have hempty : (∀ i : Nat, ([] : List String)[i]? = some "transaction_initiated" → i = 0) ∧
      (node.unlockAccount senderAddr senderPassphrase = none →
        node.transactionHash.isSome = true → InitiatedPrecedesTerminals []) :=
    ⟨fun i hi => by simp at hi, fun _ _ i hi => by simp at hi⟩
  rcases transfer_effects_cases toLowerCase h UC_GAS_PRICE node contractAddress txUUID senderAddr
    senderPassphrase recipient amountInWei options with he | he | he
  · have hks : ks = [] := by simp [ks, he, kinds, notifications]
    rw [hks]; exact hempty
  · have hks : ks = [] := by simp [ks, he, kinds, notifications]
    rw [hks]; exact hempty
  · have hc := asyncTransfer_kinds_cases UC_GAS_PRICE node (getReturnType options.returnType)
      txUUID senderAddr senderPassphrase recipient (h.convertToBigNumber amountInWei)
      { notificationData := initialNotification contractAddress txUUID options.tag,
        effects := [Effect.getBalance senderAddr], settled := none, uncaught := false } rfl
    have hks : ks = kinds (asyncTransfer UC_GAS_PRICE node (getReturnType options.returnType)
        txUUID senderAddr senderPassphrase recipient (h.convertToBigNumber amountInWei)
        { notificationData := initialNotification contractAddress txUUID options.tag,
          effects := [Effect.getBalance senderAddr], settled := none,
          uncaught := false }).effects := by
      simp only [ks, he]
    rw [hks]
    have hfirst := initiated_first_of_cases _ _ hc
    exact ⟨hfirst.1, fun hu ht => hfirst.2 ⟨hu, ht⟩⟩

/-- Witness of C8 as amended, on the ambiguous-timeout scenario, where the node reports the hash
0xdef: the terminal notification has `transaction_initiated` before it. -/
theorem transfer_initiated_comes_first_witness :
    InitiatedPrecedesTerminals (kinds (transfer asciiToLowerCase sampleHelper "0x3B9ACA00" timeoutNode "0xc0"
      "uuid-1" "0xa" "pw" "0xb" (100 : Int)
      { tag := some "test", returnType := some "txReceipt" }).effects) :=
  (transfer_initiated_comes_first asciiToLowerCase sampleHelper "0x3B9ACA00" timeoutNode "0xc0" "uuid-1" "0xa" "pw"
    "0xb" (100 : Int) { tag := some "test", returnType := some "txReceipt" }).2 rfl rfl

/-- C8 fails as stated: when the node refuses to unlock the account, the only notification of
the transfer is `transaction_error`, with no `transaction_initiated` before it. -/
theorem transfer_error_without_initiated :
    kinds (transfer asciiToLowerCase sampleHelper "0x3B9ACA00" lockedNode "0xc0" "uuid-1" "0xa" "pw" "0xb"
      (100 : Int) { tag := some "test", returnType := some "txReceipt" }).effects
      = ["transaction_error"] ∧
    ¬ InitiatedPrecedesTerminals (kinds (transfer asciiToLowerCase sampleHelper "0x3B9ACA00" lockedNode "0xc0"
      "uuid-1" "0xa" "pw" "0xb" (100 : Int)
      { tag := some "test", returnType := some "txReceipt" }).effects) := by
  have hk : kinds (transfer asciiToLowerCase sampleHelper "0x3B9ACA00" lockedNode "0xc0" "uuid-1" "0xa" "pw" "0xb"
      (100 : Int) { tag := some "test", returnType := some "txReceipt" }).effects
      = ["transaction_error"] := by decide
  refine ⟨hk, ?_⟩
  rw [hk]
  intro hc
  obtain ⟨j, hj, _⟩ := hc 0 (Or.inr rfl)
  exact absurd hj (Nat.not_lt_zero j)

/-! ## Send failure without a message -/

/-- C2 fails on the code: the request is valid and the sender solvent, the node unlocks the
account, reports the hash 0xabc and then rejects the send with a value that has no `message`.
The reason does not contain "not mined within" and no lookup is made, so the claim says the run
ends with a single `transaction_error` notification carrying the reason; the `catch` callback
throws instead, the only notification is `transaction_initiated`, there is no terminal
notification and the promise stays pending. -/
theorem transfer_send_failure_without_message :
    Valid asciiToLowerCase sampleHelper "0xa" "0xb" (100 : Int) (some "test") ∧
    messagelessSendNode.getBalance "0xa" = .ok (.number 1000) ∧
    messagelessSendNode.unlockAccount "0xa" "pw" = none ∧
    messagelessSendNode.outcome = .error { message := none, detail := "nonce too low" } ∧
    lookups (transfer asciiToLowerCase sampleHelper "0x3B9ACA00" messagelessSendNode "0xc0"
      "uuid-1" "0xa" "pw" "0xb" (100 : Int)
      { tag := some "test", returnType := some "txReceipt" }).effects = [] ∧
    kinds (transfer asciiToLowerCase sampleHelper "0x3B9ACA00" messagelessSendNode "0xc0"
      "uuid-1" "0xa" "pw" "0xb" (100 : Int)
      { tag := some "test", returnType := some "txReceipt" }).effects
      = ["transaction_initiated"] ∧
    terminals (transfer asciiToLowerCase sampleHelper "0x3B9ACA00" messagelessSendNode "0xc0"
      "uuid-1" "0xa" "pw" "0xb" (100 : Int)
      { tag := some "test", returnType := some "txReceipt" }).effects = [] ∧
    (transfer asciiToLowerCase sampleHelper "0x3B9ACA00" messagelessSendNode "0xc0"
      "uuid-1" "0xa" "pw" "0xb" (100 : Int)
      { tag := some "test", returnType := some "txReceipt" }).result = .pending :=
  ⟨⟨by decide, by decide, by decide, by decide, by decide⟩, rfl, rfl, rfl, by decide, by decide,
    by decide, by decide⟩

/-! ## Terminal notifications -/

/-- For a valid, solvent transfer on a node whose rejections all carry a message, exactly one
terminal notification is published. -/
theorem transfer_one_terminal_of_messages {A : Type} [ToString A] (toLowerCase : String → String)
    (h : BasicHelper A)
    (UC_GAS_PRICE : String)
    (node : Node) (contractAddress txUUID senderAddr senderPassphrase recipient : String)
    (amountInWei : A) (options : Options) (b : Int)
    (hvalid : Valid toLowerCase h senderAddr recipient amountInWei options.tag)
    (hbal : node.getBalance senderAddr = .ok (.number b))
    (hsolvent : h.convertToBigNumber amountInWei ≤ b)
    (hmsg : ReasonsCarryMessage node senderAddr senderPassphrase) :
    ∃ n, terminals (transfer toLowerCase h UC_GAS_PRICE node contractAddress txUUID senderAddr
      senderPassphrase recipient amountInWei options).effects = [n] := by
  rw [transfer_effects_of_valid_solvent toLowerCase h UC_GAS_PRICE node contractAddress txUUID senderAddr
    senderPassphrase recipient amountInWei options b hvalid hbal hsolvent]
  obtain ⟨hmU, hmO⟩ := hmsg
  simp only [asyncTransfer, catchHandler]
  rcases hU : node.unlockAccount senderAddr senderPassphrase with _ | ru
  · rcases hT : node.transactionHash with _ | hsh <;>
    rcases hO : node.outcome with rc | rs
    · simp [terminals, isTerminal, notifications, notifications_append, initialNotification]
    · rcases hM : rs.message with _ | m
      · have := hmO rs hO
        simp [hM] at this
      · by_cases hI : includes m "not mined within" = true
        · rcases hL : node.getTransactionReceipt "" with _ | rc <;>
          simp [hM, hI, hL, terminals, isTerminal, notifications, notifications_append,
            initialNotification]
        · simp [hM, hI, terminals, isTerminal, notifications, notifications_append,
            initialNotification]
    · simp [terminals, isTerminal, notifications, notifications_append, initialNotification]
    · rcases hM : rs.message with _ | m
      · have := hmO rs hO
        simp [hM] at this
      · by_cases hI : includes m "not mined within" = true
        · rcases hL : node.getTransactionReceipt hsh with _ | rc <;>
          simp [hM, hI, hL, terminals, isTerminal, notifications, notifications_append,
            initialNotification]
        · simp [hM, hI, terminals, isTerminal, notifications, notifications_append,
            initialNotification]
  · rcases hM : ru.message with _ | m
    · have := hmU ru hU
      simp [hM] at this
    · by_cases hI : includes m "not mined within" = true
      · rcases hL : node.getTransactionReceipt "" with _ | rc <;>
        simp [hM, hI, hL, terminals, isTerminal, notifications, notifications_append,
          initialNotification]
      · simp [hM, hI, terminals, isTerminal, notifications, notifications_append,
          initialNotification]

/-- C1 fails on the code: the request is valid and the sender solvent, the node rejects the
unlock with a value that has no `message`, and the run publishes no terminal notification at
all; the `catch` callback throws before it reaches `onCatchError`. -/
theorem transfer_no_terminal_on_messageless_rejection :
    Valid asciiToLowerCase sampleHelper "0xa" "0xb" (100 : Int) (some "test") ∧
    messagelessNode.getBalance "0xa" = .ok (.number 1000) ∧
    terminals (transfer asciiToLowerCase sampleHelper "0x3B9ACA00" messagelessNode "0xc0" "uuid-1" "0xa" "pw"
      "0xb" (100 : Int) { tag := some "test", returnType := some "txReceipt" }).effects = [] ∧
    (transfer asciiToLowerCase sampleHelper "0x3B9ACA00" messagelessNode "0xc0" "uuid-1" "0xa" "pw"
      "0xb" (100 : Int) { tag := some "test", returnType := some "txReceipt" }).uncaught = true :=
  ⟨⟨by decide, by decide, by decide, by decide, by decide⟩, rfl, by decide, by decide⟩

/-! ## Settlement of the public operations -/

/-- C9 fails on the code: with a rejected balance read, `getBalanceOf` and `transfer` never
settle; with an unlock rejected by a value without `message`, `transfer` never settles; with
return type txHash and a receipt that comes without a hash signal, `transfer` never settles;
with a rejected gas price read, `claim` rejects instead of resolving to a failed response. -/
theorem public_operations_not_always_resolved :
    (getBalanceOf sampleHelper unreachableNode "0xa").result = .pending ∧
    (transfer asciiToLowerCase sampleHelper "0x3B9ACA00" unreachableNode "0xc0" "uuid-1" "0xa" "pw" "0xb"
      (100 : Int) { tag := some "test", returnType := none }).result = .pending ∧
    (transfer asciiToLowerCase sampleHelper "0x3B9ACA00" messagelessNode "0xc0" "uuid-1" "0xa" "pw" "0xb"
      (100 : Int) { tag := some "test", returnType := some "txReceipt" }).result = .pending ∧
    (transfer asciiToLowerCase sampleHelper "0x3B9ACA00" silentNode "0xc0" "uuid-1" "0xa" "pw" "0xb"
      (100 : Int) { tag := some "test", returnType := some "txHash" }).result = .pending ∧
    (claim "0x3B9ACA00" brokenClaimEnv "0xc0" "0xa" "pw" "0xb").result
      = .rejected { message := some "connection refused", detail := "" } :=
  ⟨by decide, by decide, by decide, by decide, by decide⟩

end StPrime
